import Mathlib

/-!
Shallow embedding of the health-data ingestion and scoring pipeline of
`src/insight_engine.py` (functions `parse_xml` and `run_engine`).

Modelling conventions, fixed once for the whole file:

* The XML input is modelled after the record stream `root.findall('Record')`:
  a `List Record`, each `Record` carrying the attributes the source reads.
  `valueNum` models the result of Python `float(record.attrib['value'])`:
  `some q` when the attribute is present and parses to a (finite) number,
  `none` when it is missing or non-numeric (both cases make the source
  `continue`, lines 46-49 and 57-60).  `value` is the raw attribute string
  as read by the sleep branch (line 67).  `startEpoch`/`endEpoch` model the
  results of `datetime.fromisoformat` on `startDate`/`endDate` as epoch
  seconds; `none` models a missing attribute or an unparseable timestamp
  (the `except` of lines 70-76).
* Python floats are modelled as `ℚ`; `NaN` ("no value") is modelled by
  `Option ℚ`.  Pandas `groupby(...).agg('sum')` maps an all-NaN group to `0`
  (its `min_count` is 0), which the embedding renders as `Option.getD 0`;
  `agg('last')` keeps the last non-NaN value, rendered as `getLast?` of the
  present values.
* Calendar dates: the source keys rows by `startDate[:10]` and converts the
  key with `pd.to_datetime`.  The embedding parses strict `YYYY-MM-DD` keys
  to a day number (days since the civil epoch of the standard
  days-from-civil formula) and restricts to pandas' nanosecond-timestamp
  range 1677-09-22 .. 2262-04-11; a key that fails to parse makes the whole
  run fail (`pd.to_datetime` raises), which `run_engine` renders as `none`.
* `datetime.now()` (line 101) is an extra input `now : ℚ` (a day count,
  fractions allowed); `cutoff = now - macrocycle_days` as in the source.
* The recommendation labels (source lines 163-177) are rendered as the
  inductive `RecLabel`, one constructor per source string literal.
-/

/-- One `<Record .../>` element as read by `parse_xml`. -/
structure Record where
  type : Option String := none
  startDate : String := ""
  value : Option String := none
  valueNum : Option ℚ := none
  sourceName : Option String := none
  startEpoch : Option ℚ := none
  endEpoch : Option ℚ := none
deriving DecidableEq, Repr

/-- `METRICS_MAP` key aggregated with "last" (source line 12). -/
def WEIGHT_TYPE : String := "HKQuantityTypeIdentifierBodyMass"

/-- `METRICS_MAP` key aggregated with "sum" (source line 13). -/
def CALORIES_TYPE : String := "HKQuantityTypeIdentifierDietaryEnergyConsumed"

/-- `METRICS_MAP` key aggregated with "sum" (source line 14). -/
def WATER_TYPE : String := "HKQuantityTypeIdentifierDietaryWater"

/-- Source line 19. -/
def STEP_TYPE : String := "HKQuantityTypeIdentifierStepCount"

/-- Source line 21. -/
def SLEEP_TYPE : String := "HKCategoryTypeIdentifierSleepAnalysis"

/-- Source lines 23-26: category values that count as actual sleep. -/
def SLEEP_VALUES : List String :=
  ["HKCategoryValueSleepAnalysisAsleepCore",
   "HKCategoryValueSleepAnalysisAsleepREM",
   "HKCategoryValueSleepAnalysisAsleepDeep",
   "HKCategoryValueSleepAnalysisAsleep"]

/-- All record types the parser recognizes (anything else is skipped). -/
def recognizedTypes : List String :=
  [WEIGHT_TYPE, CALORIES_TYPE, WATER_TYPE, STEP_TYPE, SLEEP_TYPE]

/-- `date_str = record.attrib.get('startDate', '')[:10]` (source line 38). -/
def key (r : Record) : String := r.startDate.take 10

/-- Value of a digit character, `none` on a non-digit. -/
def charDigit (c : Char) : Option ℕ := if c.isDigit then some (c.toNat - 48) else none

/-- Gregorian leap-year rule. -/
def isLeapYear (y : ℕ) : Bool := decide (y % 4 = 0 ∧ (y % 100 ≠ 0 ∨ y % 400 = 0))

/-- Number of days of month `m` in year `y`. -/
def daysInMonth (y m : ℕ) : ℕ :=
  if m = 2 then (if isLeapYear y then 29 else 28)
  else if m = 4 ∨ m = 6 ∨ m = 9 ∨ m = 11 then 30 else 31

/-- Day number of the civil date `y-m-d` (standard days-from-civil formula,
valid for the years ≥ 1677 used here; only differences of day numbers and
their order matter to the pipeline). -/
def dayNumber (y m d : ℕ) : ℕ :=
  let mp := (m + 9) % 12
  let yp := y - mp / 10
  365 * yp + yp / 4 + yp / 400 + (mp * 306 + 5) / 10 + (d - 1) - yp / 100

/-- `pd.to_datetime` on a 10-character `YYYY-MM-DD` date key (source line 88),
returning the day number; `none` models the raised exception on a key that
does not parse or falls outside pandas' representable timestamp range. -/
def parseDate (s : String) : Option ℕ :=
  match s.toList with
  | [y1, y2, y3, y4, s1, m1, m2, s2, d1, d2] =>
    if s1 = '-' ∧ s2 = '-' then
      match charDigit y1, charDigit y2, charDigit y3, charDigit y4,
            charDigit m1, charDigit m2, charDigit d1, charDigit d2 with
      | some a, some b, some c, some d, some e, some f, some g, some h =>
        let y := 1000 * a + 100 * b + 10 * c + d
        let m := 10 * e + f
        let dd := 10 * g + h
        if 1 ≤ m ∧ m ≤ 12 ∧ 1 ≤ dd ∧ dd ≤ daysInMonth y m then
          let n := dayNumber y m dd
          if dayNumber 1677 9 22 ≤ n ∧ n ≤ dayNumber 2262 4 11 then some n else none
        else none
      | _, _, _, _, _, _, _, _ => none
    else none
  | _ => none

/-- Deduplication keeping the first occurrence, the order of first insertion
into a Python dict (auxiliary, with the already-seen accumulator). -/
def dedupFirstAux {α : Type} [DecidableEq α] : List α → List α → List α
  | _, [] => []
  | seen, a :: l =>
    if a ∈ seen then dedupFirstAux seen l else a :: dedupFirstAux (a :: seen) l

/-- Deduplication keeping first occurrences: the key order of the Python
dict `data` built by `parse_xml`. -/
def dedupFirst {α : Type} [DecidableEq α] (l : List α) : List α := dedupFirstAux [] l

/-- The distinct date keys of `data`, in insertion order: every record with a
nonempty `startDate` creates its key's entry (source lines 38-43), whether or
not the record later qualifies for any metric. -/
def rowKeys (recs : List Record) : List String :=
  dedupFirst (recs.filterMap (fun r => if key r = "" then none else some (key r)))

/-- `data[date_str]['calories']`: the running sum of the numeric values of
calorie records for this key (source lines 55-64), `none` ("key absent",
hence NaN in the frame) when no calorie record with a numeric value exists. -/
def caloriesParsed (recs : List Record) (k : String) : Option ℚ :=
  let vs := (recs.filter (fun r => decide (r.type = some CALORIES_TYPE ∧ key r = k))).filterMap
    Record.valueNum
  if vs.isEmpty then none else some vs.sum

/-- `data[date_str]['water']`, as for calories (source lines 55-64). -/
def waterParsed (recs : List Record) (k : String) : Option ℚ :=
  let vs := (recs.filter (fun r => decide (r.type = some WATER_TYPE ∧ key r = k))).filterMap
    Record.valueNum
  if vs.isEmpty then none else some vs.sum

/-- `data[date_str]['weight']`: last-seen numeric body-mass value in document
order (source lines 61-62 overwrite). -/
def weightParsed (recs : List Record) (k : String) : Option ℚ :=
  ((recs.filter (fun r => decide (r.type = some WEIGHT_TYPE ∧ key r = k))).filterMap
    Record.valueNum).getLast?

/-- `(end - start).total_seconds() / 3600` for a sleep record, `none` when a
timestamp is missing or unparseable (source lines 70-76). -/
def sleepHours (r : Record) : Option ℚ :=
  match r.startEpoch, r.endEpoch with
  | some s, some e => some ((e - s) / 3600)
  | _, _ => none

/-- `data[date_str]['sleep']`: summed asleep hours of qualifying sleep
records (source lines 66-76). -/
def sleepParsed (recs : List Record) (k : String) : Option ℚ :=
  let vs := (recs.filter (fun r =>
    decide (r.type = some SLEEP_TYPE ∧ key r = k ∧ r.value.getD "" ∈ SLEEP_VALUES))).filterMap
    sleepHours
  if vs.isEmpty then none else some vs.sum

/-- The step records that register in `step_sources` for key `k`: right type
and a numeric value (source lines 45-53). -/
def stepRecords (recs : List Record) (k : String) : List Record :=
  recs.filter (fun r => decide (r.type = some STEP_TYPE ∧ key r = k ∧ r.valueNum.isSome = true))

/-- `record.attrib.get('sourceName', 'unknown')` (source line 50). -/
def sourceOf (r : Record) : String := r.sourceName.getD "unknown"

/-- The distinct source names seen for key `k`, in first-seen order (the key
order of `step_sources[date_str]`). -/
def stepSrcs (recs : List Record) (k : String) : List String :=
  dedupFirst ((stepRecords recs k).map sourceOf)

/-- `step_sources[date_str][source]`: the accumulated step total of one
source for one key (source line 53). -/
def stepTotal (recs : List Record) (k : String) (s : String) : ℚ :=
  (((stepRecords recs k).filter (fun r => decide (sourceOf r = s))).filterMap Record.valueNum).sum

/-- `step_sources[date_str].values()` in key order. -/
def stepTotalsList (recs : List Record) (k : String) : List ℚ :=
  (stepSrcs recs k).map (stepTotal recs k)

/-- `data[date_str]['steps']`: the mean of the per-source totals that are
`> 0`, `none` when no source total is positive (source lines 78-84). -/
def stepsParsed (recs : List Record) (k : String) : Option ℚ :=
  let pos := (stepTotalsList recs k).filter (fun v => decide (0 < v))
  if pos.isEmpty then none else some (pos.sum / (pos.length : ℚ))

/-- `pd.to_datetime` applied to every row key of the frame (source line 88):
`none` as soon as one key fails, otherwise each key paired with its day
number. -/
def parsePairs : List String → Option (List (String × ℕ))
  | [] => some []
  | k :: ks =>
    match parseDate k, parsePairs ks with
    | some d, some ps => some ((k, d) :: ps)
    | _, _ => none

/-- The per-client targets mapping passed to `run_engine`; `none` models an
absent dict key. -/
structure Targets where
  calories : Option ℚ := none
  steps : Option ℚ := none
  water : Option ℚ := none
  sleep : Option ℚ := none
  weight_change_pct_per_week : Option ℚ := none
deriving DecidableEq, Repr

/-- `targets.get('calories', 2850)` (source line 137). -/
def target_cal (t : Targets) : ℚ := t.calories.getD 2850

/-- `targets.get('steps', 7000)` (source line 138). -/
def target_steps (t : Targets) : ℚ := t.steps.getD 7000

/-- `targets.get('water', 2500)` (source line 139). -/
def target_water (t : Targets) : ℚ := t.water.getD 2500

/-- `targets.get('sleep', 7.5)` (source line 140). -/
def target_sleep (t : Targets) : ℚ := t.sleep.getD (15 / 2)

/-- `targets.get('weight_change_pct_per_week', -0.75)` (source line 136). -/
def target_weight_chg (t : Targets) : ℚ := t.weight_change_pct_per_week.getD (-(3 / 4))

/-- The closed set of recommendation labels, one constructor per string
literal of `recommend` (source lines 163-177):
`insufficientData` = "Insufficient data", `aligned` = the "Behaviours aligned,
hold steady" string, `lossTooSlow` = "Loss too slow, reduce calories
slightly", `lossTooAggressive` = "Loss too aggressive, increase calories
slightly", `sleepDeficit` = "Sleep deficit detected, prioritise recovery",
`underHydrated` = "Under-hydrated, increase daily water intake",
`monitorTrend` = "Monitor trend, small adjustments if needed". -/
inductive RecLabel where
  | insufficientData
  | aligned
  | lossTooSlow
  | lossTooAggressive
  | sleepDeficit
  | underHydrated
  | monitorTrend
deriving DecidableEq, Repr

/-- The fields of a row that `recommend` reads (source lines 161-177).  A
`none` in `sleep_dev`/`water_dev` stands for a missing key or a NaN value;
in Python both make the `< -20` comparison false (`row.get(..., 0)` with a
NaN compares false, and `0 < -20` is false). -/
structure ScoreRow where
  composite_score : Option ℚ := none
  weight_pct_change : Option ℚ := none
  sleep_dev : Option ℚ := none
  water_dev : Option ℚ := none
deriving DecidableEq, Repr

/-- `recommend(row)` (source lines 161-177); `TOLERANCE = 0.3` is `3/10`. -/
def recommend (tw : ℚ) (r : ScoreRow) : RecLabel :=
  match r.composite_score, r.weight_pct_change with
  | some score, some wchg =>
    if score < 3 / 10 then .aligned
    else if wchg > tw + 3 / 10 then .lossTooSlow
    else if wchg < tw - 3 / 10 then .lossTooAggressive
    else if (match r.sleep_dev with | some v => decide (v < -20) | none => false) then
      .sleepDeficit
    else if (match r.water_dev with | some v => decide (v < -20) | none => false) then
      .underHydrated
    else .monitorTrend
  | _, _ => .insufficientData

/-- One row of the output table of `run_engine`, with every column the
source frame carries at return (source line 181). -/
structure Row where
  date : ℕ
  weight : Option ℚ
  calories : ℚ
  steps : ℚ
  water : ℚ
  sleep : ℚ
  weight_avg : Option ℚ
  calories_avg : ℚ
  steps_avg : ℚ
  water_avg : ℚ
  sleep_avg : ℚ
  day_in_cycle : ℕ
  period : ℕ
  period_label : String
  weight_pct_change : Option ℚ
  cal_dev : ℚ
  steps_dev : ℚ
  water_dev : ℚ
  sleep_dev : ℚ
  composite_score : Option ℚ
  recommendation : RecLabel
deriving DecidableEq, Repr

/-- The rows retained by the cutoff filter (source line 102), as
(key, day-number) pairs in frame order. -/
def retainedOf (ps : List (String × ℕ)) (cutoff : ℚ) : List (String × ℕ) :=
  ps.filter (fun p => decide (cutoff ≤ (p.2 : ℚ)))

/-- The distinct day numbers of the retained rows, ascending: the group keys
of `groupby('date')` after `sort_values('date')` (source lines 89 and 120). -/
def datesOf (retained : List (String × ℕ)) : List ℕ :=
  List.insertionSort (· ≤ ·) ((retained.map Prod.snd).dedup)

/-- The retained keys whose parsed date is `d` (one `groupby` group), in
frame order. -/
def groupKeys (retained : List (String × ℕ)) (d : ℕ) : List String :=
  (retained.filter (fun p => decide (p.2 = d))).map Prod.fst

/-- Daily `calories` after `groupby(...).agg('sum')`: pandas sums the
non-NaN values of the group and yields `0` for an all-NaN group, hence the
`getD 0` (source lines 113-120). -/
def caloriesAt (recs : List Record) (retained : List (String × ℕ)) (d : ℕ) : ℚ :=
  ((groupKeys retained d).map (fun k => (caloriesParsed recs k).getD 0)).sum

/-- Daily `steps` after `groupby(...).agg('sum')`. -/
def stepsAt (recs : List Record) (retained : List (String × ℕ)) (d : ℕ) : ℚ :=
  ((groupKeys retained d).map (fun k => (stepsParsed recs k).getD 0)).sum

/-- Daily `water` after `groupby(...).agg('sum')`. -/
def waterAt (recs : List Record) (retained : List (String × ℕ)) (d : ℕ) : ℚ :=
  ((groupKeys retained d).map (fun k => (waterParsed recs k).getD 0)).sum

/-- Daily `sleep` after `groupby(...).agg('sum')`. -/
def sleepAt (recs : List Record) (retained : List (String × ℕ)) (d : ℕ) : ℚ :=
  ((groupKeys retained d).map (fun k => (sleepParsed recs k).getD 0)).sum

/-- Daily `weight` after `groupby(...).agg('last')`: the last non-NaN value
of the group, NaN (`none`) when the group has none. -/
def weightRawAt (recs : List Record) (retained : List (String × ℕ)) (d : ℕ) : Option ℚ :=
  ((groupKeys retained d).filterMap (weightParsed recs)).getLast?

/-- `df['weight'].ffill().bfill()` at row index `i` (source line 123): the
last present value at or before `i`, else the first present value of the
whole column (which, when the forward scan found nothing, is the first
present value after `i`). -/
def weightFilledAt (recs : List Record) (retained : List (String × ℕ)) (dates : List ℕ)
    (i : ℕ) : Option ℚ :=
  match ((List.range (i + 1)).filterMap
      (fun j => weightRawAt recs retained (dates.getD j 0))).getLast? with
  | some v => some v
  | none => ((List.range dates.length).filterMap
      (fun j => weightRawAt recs retained (dates.getD j 0))).head?

/-- The row indexes of the trailing rolling window of width `rw` ending at
`i` (`min_periods=1`, source line 128). -/
def windowIdx (rw i : ℕ) : List ℕ :=
  (List.range (i + 1 - (i + 1 - rw))).map (fun j => (i + 1 - rw) + j)

/-- `rolling(rw, min_periods=1).mean()` of an everywhere-present column. -/
def colAvg (f : ℕ → ℚ) (rw i : ℕ) : ℚ :=
  let vs := (windowIdx rw i).map f
  vs.sum / (vs.length : ℚ)

/-- `rolling(rw, min_periods=1).mean()` of the weight column: the mean of
the present values of the window, NaN (`none`) when it has none. -/
def weightAvgAt (recs : List Record) (retained : List (String × ℕ)) (dates : List ℕ)
    (rw i : ℕ) : Option ℚ :=
  let vs := (windowIdx rw i).filterMap (weightFilledAt recs retained dates)
  if vs.isEmpty then none else some (vs.sum / (vs.length : ℚ))

/-- `df['weight_avg'].pct_change(periods=rw) * 100` at row `i` (source line
142): percent change against the row `rw` positions earlier, `none` for the
first `rw` rows or a missing operand. -/
def wpcAt (recs : List Record) (retained : List (String × ℕ)) (dates : List ℕ)
    (rw i : ℕ) : Option ℚ :=
  if rw ≤ i then
    match weightAvgAt recs retained dates rw i, weightAvgAt recs retained dates rw (i - rw) with
    | some a, some b => some ((a - b) / b * 100)
    | _, _ => none
  else none

/-- Row `i` of the finished table: daily aggregation, weight fill, rolling
averages, period labels, deviations, composite score and recommendation
(source lines 107-179). -/
def mkRow (recs : List Record) (t : Targets) (rw : ℕ) (retained : List (String × ℕ))
    (dates : List ℕ) (i : ℕ) : Row :=
  let d := dates.getD i 0
  let cal_avg := colAvg (fun j => caloriesAt recs retained (dates.getD j 0)) rw i
  let steps_avg := colAvg (fun j => stepsAt recs retained (dates.getD j 0)) rw i
  let water_avg := colAvg (fun j => waterAt recs retained (dates.getD j 0)) rw i
  let sleep_avg := colAvg (fun j => sleepAt recs retained (dates.getD j 0)) rw i
  let wpc := wpcAt recs retained dates rw i
  let cal_dev := (cal_avg - target_cal t) / target_cal t * 100
  let steps_dev := (steps_avg - target_steps t) / target_steps t * 100
  let water_dev := (water_avg - target_water t) / target_water t * 100
  let sleep_dev := (sleep_avg - target_sleep t) / target_sleep t * 100
  let comp := wpc.map (fun wv =>
    (35 : ℚ) / 100 * |wv - target_weight_chg t| + 25 / 100 * |cal_dev| +
      15 / 100 * |steps_dev| + 15 / 100 * |water_dev| + 10 / 100 * |sleep_dev|)
  let dic := d - dates.getD 0 0
  { date := d
    weight := weightFilledAt recs retained dates i
    calories := caloriesAt recs retained d
    steps := stepsAt recs retained d
    water := waterAt recs retained d
    sleep := sleepAt recs retained d
    weight_avg := weightAvgAt recs retained dates rw i
    calories_avg := cal_avg
    steps_avg := steps_avg
    water_avg := water_avg
    sleep_avg := sleep_avg
    day_in_cycle := dic
    period := dic / rw + 1
    period_label := "Period " ++ toString (dic / rw + 1)
    weight_pct_change := wpc
    cal_dev := cal_dev
    steps_dev := steps_dev
    water_dev := water_dev
    sleep_dev := sleep_dev
    composite_score := comp
    recommendation := recommend (target_weight_chg t)
      { composite_score := comp, weight_pct_change := wpc,
        sleep_dev := some sleep_dev, water_dev := some water_dev } }

/-- `run_engine(xml_bytes, targets, macrocycle_days, rolling_window)`
(source lines 93-181), with the record stream already extracted from the
bytes and `now` the value of `datetime.now()` at source line 101 as a day
count.  `none` models an exception escaping the call (an unparseable date
key); `some []` is the empty table of the early return at line 105. -/
def run_engine (recs : List Record) (t : Targets) (retention_days : ℕ) (rw : ℕ)
    (now : ℚ) : Option (List Row) :=
  match parsePairs (rowKeys recs) with
  | none => none
  | some ps =>
    let retained := retainedOf ps (now - (retention_days : ℚ))
    if retained.isEmpty then some []
    else some ((List.range (datesOf retained).length).map
      (mkRow recs t rw retained (datesOf retained)))

/-- The targets mapping with every absent key replaced by the built-in
default of source lines 136-140. -/
def fillTargets (t : Targets) : Targets :=
  { calories := some (target_cal t), steps := some (target_steps t),
    water := some (target_water t), sleep := some (target_sleep t),
    weight_change_pct_per_week := some (target_weight_chg t) }

/-- Modelled from the spec, section 4.5: the recommendation rules as an
ordered table of (condition, label) pairs, with the spec's "first matching
rule wins" evaluation and the spec's missing-as-0 treatment in the
`sleep_dev`/`water_dev` comparisons.  This is the claim side of C7, to be
compared with `recommend` above (which is translated from the source). -/
def specRuleList (tw : ℚ) (r : ScoreRow) : List (Bool × RecLabel) :=
  [(r.composite_score.isNone || r.weight_pct_change.isNone, .insufficientData),
   ((match r.composite_score with | some s => decide (s < 3 / 10) | none => false), .aligned),
   ((match r.weight_pct_change with | some w => decide (w > tw + 3 / 10) | none => false),
     .lossTooSlow),
   ((match r.weight_pct_change with | some w => decide (w < tw - 3 / 10) | none => false),
     .lossTooAggressive),
   (decide (r.sleep_dev.getD 0 < -20), .sleepDeficit),
   (decide (r.water_dev.getD 0 < -20), .underHydrated),
   (true, .monitorTrend)]

/-- Modelled from the spec, section 4.5: first matching rule wins. -/
def recommendSpec (tw : ℚ) (r : ScoreRow) : RecLabel :=
  ((specRuleList tw r).findSome? (fun p => if p.1 then some p.2 else none)).getD .monitorTrend

/-- A record that contributes to the `calories` metric of day `d`: right
type, numeric value, date key parsing to `d` (source lines 55-64). -/
def qualCaloriesRec (r : Record) (d : ℕ) : Prop :=
  r.type = some CALORIES_TYPE ∧ r.valueNum.isSome = true ∧ parseDate (key r) = some d

/-- A record that contributes to the `water` metric of day `d`. -/
def qualWaterRec (r : Record) (d : ℕ) : Prop :=
  r.type = some WATER_TYPE ∧ r.valueNum.isSome = true ∧ parseDate (key r) = some d

/-- A record that registers a step-source total for day `d` (source lines
45-53). -/
def qualStepsRec (r : Record) (d : ℕ) : Prop :=
  r.type = some STEP_TYPE ∧ r.valueNum.isSome = true ∧ parseDate (key r) = some d

/-- A record that contributes asleep hours to day `d` (source lines 66-76). -/
def qualSleepRec (r : Record) (d : ℕ) : Prop :=
  r.type = some SLEEP_TYPE ∧ r.value.getD "" ∈ SLEEP_VALUES ∧
    (sleepHours r).isSome = true ∧ parseDate (key r) = some d

instance (r : Record) (d : ℕ) : Decidable (qualCaloriesRec r d) := by
  unfold qualCaloriesRec; infer_instance

instance (r : Record) (d : ℕ) : Decidable (qualWaterRec r d) := by
  unfold qualWaterRec; infer_instance

instance (r : Record) (d : ℕ) : Decidable (qualStepsRec r d) := by
  unfold qualStepsRec; infer_instance

instance (r : Record) (d : ℕ) : Decidable (qualSleepRec r d) := by
  unfold qualSleepRec; infer_instance

/-- An empty targets mapping: every key absent. -/
def noTargets : Targets := {}

/-- Concrete input: a single body-mass record on 2026-01-05. -/
def wRecs : List Record :=
  [{ type := some WEIGHT_TYPE, startDate := "2026-01-05 08:00:00 +0000",
     value := some "80", valueNum := some 80, sourceName := some "Scale" }]

/-- The single output row of `run_engine wRecs noTargets 90 14 739930`
(739930 is a day number a few days after 2026-01-05 = day 739926). -/
def wRow : Row :=
  { date := 739926, weight := some 80, calories := 0, steps := 0, water := 0, sleep := 0,
    weight_avg := some 80, calories_avg := 0, steps_avg := 0, water_avg := 0, sleep_avg := 0,
    day_in_cycle := 0, period := 1, period_label := "Period 1",
    weight_pct_change := none, cal_dev := -100, steps_dev := -100, water_dev := -100,
    sleep_dev := -100, composite_score := none,
    recommendation := RecLabel.insufficientData }

/-- Concrete input: a single dietary-energy record on 2026-01-05. -/
def c1recs : List Record :=
  [{ type := some CALORIES_TYPE, startDate := "2026-01-05 08:00:00 +0000",
     value := some "500", valueNum := some 500, sourceName := some "App" }]

/-- Concrete input: a single record with an unrecognized type (Height) on
2026-01-05; the parser skips it for every metric. -/
def c3recs : List Record :=
  [{ type := some "HKQuantityTypeIdentifierHeight", startDate := "2026-01-05 08:00:00 +0000",
     value := some "180", valueNum := some 180 }]

/-- Concrete input: a single dietary-energy record dated 2027-03-01 = day
740346, more than a year after the `now` (739930) used with it. -/
def c4recs : List Record :=
  [{ type := some CALORIES_TYPE, startDate := "2027-03-01 08:00:00 +0000",
     value := some "500", valueNum := some 500 }]

/-- Concrete input: step records on one day from two sources, source A
totalling 600 + 400 = 1000 and source B totalling 0. -/
def c5recs : List Record :=
  [{ type := some STEP_TYPE, startDate := "2026-01-05 08:00:00 +0000",
     value := some "600", valueNum := some 600, sourceName := some "A" },
   { type := some STEP_TYPE, startDate := "2026-01-05 09:00:00 +0000",
     value := some "400", valueNum := some 400, sourceName := some "A" },
   { type := some STEP_TYPE, startDate := "2026-01-05 10:00:00 +0000",
     value := some "0", valueNum := some 0, sourceName := some "B" }]

/-- The single output row of `run_engine c5recs noTargets 90 14 739930`:
steps contributed (two-source mean 1000), while calories, water and sleep
had no contributing record on that date. -/
def c5row : Row :=
  { date := 739926, weight := none, calories := 0, steps := 1000, water := 0, sleep := 0,
    weight_avg := none, calories_avg := 0, steps_avg := 1000, water_avg := 0, sleep_avg := 0,
    day_in_cycle := 0, period := 1, period_label := "Period 1",
    weight_pct_change := none, cal_dev := -100, steps_dev := -600 / 7, water_dev := -100,
    sleep_dev := -100, composite_score := none,
    recommendation := RecLabel.insufficientData }

/-- Concrete input: a single step record with the negative value -5, a
per-source daily total that is nonzero but not positive. -/
def c5neg : List Record :=
  [{ type := some STEP_TYPE, startDate := "2026-01-05 08:00:00 +0000",
     value := some "-5", valueNum := some (-5), sourceName := some "A" }]

/-- Concrete input: a single dietary-energy record whose value attribute
"abc" is non-numeric, so the record qualifies for nothing. -/
def c8recs : List Record :=
  [{ type := some CALORIES_TYPE, startDate := "2026-01-05 08:00:00 +0000",
     value := some "abc", valueNum := none }]

theorem mem_dedupFirstAux {α : Type} [DecidableEq α] (seen l : List α) (x : α) :
    x ∈ dedupFirstAux seen l ↔ x ∈ l ∧ x ∉ seen := by
  induction l generalizing seen with
  | nil => simp [dedupFirstAux]
  | cons a l ih =>
    by_cases ha : a ∈ seen
    · rw [dedupFirstAux, if_pos ha, ih]
      constructor
      · rintro ⟨h1, h2⟩; exact ⟨List.mem_cons_of_mem _ h1, h2⟩
      · rintro ⟨h1, h2⟩
        rcases List.mem_cons.mp h1 with rfl | h1
        · exact absurd ha h2
        · exact ⟨h1, h2⟩
    · rw [dedupFirstAux, if_neg ha]
      simp only [List.mem_cons, ih, List.mem_cons]
      constructor
      · rintro (rfl | ⟨h1, h2⟩)
        · exact ⟨Or.inl rfl, ha⟩
        · exact ⟨Or.inr h1, fun hx => h2 (Or.inr hx)⟩
      · rintro ⟨rfl | h1, h2⟩
        · exact Or.inl rfl
        · by_cases hxa : x = a
          · exact Or.inl hxa
          · exact Or.inr ⟨h1, fun hx => hx.elim hxa h2⟩

theorem mem_dedupFirst {α : Type} [DecidableEq α] (l : List α) (x : α) :
    x ∈ dedupFirst l ↔ x ∈ l := by
  rw [dedupFirst, mem_dedupFirstAux]; simp

theorem mem_rowKeys (recs : List Record) (k : String) :
    k ∈ rowKeys recs ↔ ∃ rc ∈ recs, key rc ≠ "" ∧ key rc = k := by
  rw [rowKeys, mem_dedupFirst, List.mem_filterMap]
  constructor
  · rintro ⟨rc, hrc, hk⟩
    by_cases h : key rc = ""
    · rw [if_pos h] at hk; exact absurd hk (by simp)
    · rw [if_neg h] at hk
      exact ⟨rc, hrc, h, Option.some.inj hk⟩
  · rintro ⟨rc, hrc, h, rfl⟩
    exact ⟨rc, hrc, by rw [if_neg h]⟩

theorem parsePairs_sound {ks : List String} {ps : List (String × ℕ)}
    (h : parsePairs ks = some ps) :
    ∀ p ∈ ps, p.1 ∈ ks ∧ parseDate p.1 = some p.2 := by
  induction ks generalizing ps with
  | nil =>
    simp only [parsePairs, Option.some.injEq] at h
    subst h; simp
  | cons k ks ih =>
    rcases h1 : parseDate k with _ | d <;> rcases h2 : parsePairs ks with _ | qs <;>
      simp [parsePairs, h1, h2] at h
    obtain rfl := h.symm
    rintro p hp
    rcases List.mem_cons.mp hp with rfl | hp
    · exact ⟨List.mem_cons_self _ _, h1⟩
    · obtain ⟨hm, hd⟩ := ih h2 p hp
      exact ⟨List.mem_cons_of_mem _ hm, hd⟩

theorem parsePairs_complete {ks : List String} {ps : List (String × ℕ)}
    (h : parsePairs ks = some ps) {k : String} (hk : k ∈ ks) :
    ∃ d, parseDate k = some d ∧ (k, d) ∈ ps := by
  induction ks generalizing ps with
  | nil => simp at hk
  | cons a ks ih =>
    rcases h1 : parseDate a with _ | d <;> rcases h2 : parsePairs ks with _ | qs <;>
      simp [parsePairs, h1, h2] at h
    obtain rfl := h.symm
    rcases List.mem_cons.mp hk with rfl | hk
    · exact ⟨d, h1, List.mem_cons_self _ _⟩
    · obtain ⟨d', hd', hm⟩ := ih h2 hk
      exact ⟨d', hd', List.mem_cons_of_mem _ hm⟩

theorem parsePairs_total {ks : List String}
    (h : ∀ k ∈ ks, ∃ d, parseDate k = some d) :
    ∃ ps, parsePairs ks = some ps := by
  induction ks with
  | nil => exact ⟨[], rfl⟩
  | cons k ks ih =>
    obtain ⟨d, hd⟩ := h k (List.mem_cons_self _ _)
    obtain ⟨ps, hps⟩ := ih (fun a ha => h a (List.mem_cons_of_mem _ ha))
    exact ⟨(k, d) :: ps, by simp [parsePairs, hd, hps]⟩

theorem map_getD_range (l : List ℕ) :
    (List.range l.length).map (fun i => l.getD i 0) = l := by
  induction l with
  | nil => simp
  | cons a l ih =>
    rw [List.length_cons, List.range_succ_eq_map, List.map_cons, List.map_map]
    simp only [List.getD_cons_zero, Function.comp_def, List.getD_cons_succ]
    rw [ih]

theorem mem_datesOf (R : List (String × ℕ)) (d : ℕ) :
    d ∈ datesOf R ↔ ∃ p ∈ R, p.2 = d := by
  rw [datesOf, (List.perm_insertionSort _ _).mem_iff, List.mem_dedup, List.mem_map]

theorem datesOf_sorted_lt (R : List (String × ℕ)) :
    List.Pairwise (· < ·) (datesOf R) := by
  have hs : List.Sorted (· ≤ ·) (datesOf R) := List.sorted_insertionSort _ _
  have hn : (datesOf R).Nodup :=
    (List.perm_insertionSort _ _).nodup_iff.mpr (List.nodup_dedup _)
  exact (hs.and hn).imp (fun h => lt_of_le_of_ne h.1 h.2)

theorem retained_sound {recs : List Record} {ps : List (String × ℕ)}
    (hps : parsePairs (rowKeys recs) = some ps) {cutoff : ℚ} {p : String × ℕ}
    (hp : p ∈ retainedOf ps cutoff) :
    (∃ rc ∈ recs, key rc ≠ "" ∧ key rc = p.1) ∧ parseDate p.1 = some p.2 ∧
      cutoff ≤ (p.2 : ℚ) := by
  rw [retainedOf, List.mem_filter] at hp
  obtain ⟨hmem, hdec⟩ := hp
  obtain ⟨hk, hd⟩ := parsePairs_sound hps p hmem
  exact ⟨(mem_rowKeys recs p.1).mp hk, hd, of_decide_eq_true hdec⟩

theorem retained_of_record {recs : List Record} {ps : List (String × ℕ)}
    (hps : parsePairs (rowKeys recs) = some ps) {cutoff : ℚ} {rc : Record} {d : ℕ}
    (hrc : rc ∈ recs) (hk : key rc ≠ "") (hd : parseDate (key rc) = some d)
    (hcut : cutoff ≤ (d : ℚ)) :
    (key rc, d) ∈ retainedOf ps cutoff := by
  have hmem : key rc ∈ rowKeys recs := (mem_rowKeys recs (key rc)).mpr ⟨rc, hrc, hk, rfl⟩
  obtain ⟨d', hd', hpair⟩ := parsePairs_complete hps hmem
  have : d' = d := by rw [hd] at hd'; exact (Option.some.inj hd').symm
  subst this
  rw [retainedOf, List.mem_filter]
  exact ⟨hpair, decide_eq_true hcut⟩

theorem run_engine_shape {recs : List Record} {t : Targets} {rd rw : ℕ} {now : ℚ}
    {out : List Row} (h : run_engine recs t rd rw now = some out) :
    ∃ ps, parsePairs (rowKeys recs) = some ps ∧
      ((retainedOf ps (now - (rd : ℚ)) = [] ∧ out = []) ∨
        out = (List.range (datesOf (retainedOf ps (now - (rd : ℚ)))).length).map
          (mkRow recs t rw (retainedOf ps (now - (rd : ℚ)))
            (datesOf (retainedOf ps (now - (rd : ℚ)))))) := by
  rcases hps : parsePairs (rowKeys recs) with _ | ps
  · rw [run_engine, hps] at h; exact absurd h (by simp)
  · rw [run_engine, hps] at h
    simp only at h
    by_cases hR : (retainedOf ps (now - (rd : ℚ))).isEmpty
    · rw [if_pos hR] at h
      exact ⟨ps, rfl, Or.inl ⟨List.isEmpty_iff.mp hR, (Option.some.inj h).symm⟩⟩
    · rw [if_neg hR] at h
      exact ⟨ps, rfl, Or.inr (Option.some.inj h).symm⟩

theorem mkRow_date (recs : List Record) (t : Targets) (rw : ℕ)
    (retained : List (String × ℕ)) (dates : List ℕ) (i : ℕ) :
    (mkRow recs t rw retained dates i).date = dates.getD i 0 := rfl

theorem out_map_date (recs : List Record) (t : Targets) (rw : ℕ)
    (retained : List (String × ℕ)) (dates : List ℕ) :
    ((List.range dates.length).map (mkRow recs t rw retained dates)).map Row.date = dates := by
  rw [List.map_map]
  have : (Row.date ∘ mkRow recs t rw retained dates) = fun i => dates.getD i 0 := rfl
  rw [this, map_getD_range]

theorem mem_run_engine {recs : List Record} {t : Targets} {rd rw : ℕ} {now : ℚ}
    {out : List Row} {r : Row} (h : run_engine recs t rd rw now = some out)
    (hr : r ∈ out) :
    ∃ ps i, parsePairs (rowKeys recs) = some ps ∧
      i < (datesOf (retainedOf ps (now - (rd : ℚ)))).length ∧
      r = mkRow recs t rw (retainedOf ps (now - (rd : ℚ)))
        (datesOf (retainedOf ps (now - (rd : ℚ)))) i := by
  obtain ⟨ps, hps, hsh⟩ := run_engine_shape h
  rcases hsh with ⟨hR, rfl⟩ | rfl
  · exact absurd hr (by simp)
  · rw [List.mem_map] at hr
    obtain ⟨i, hi, rfl⟩ := hr
    exact ⟨ps, i, hps, List.mem_range.mp hi, rfl⟩

theorem groupKeys_parse {recs : List Record} {ps : List (String × ℕ)}
    (hps : parsePairs (rowKeys recs) = some ps) {cutoff : ℚ} {d : ℕ} {k : String}
    (hk : k ∈ groupKeys (retainedOf ps cutoff) d) :
    parseDate k = some d := by
  rw [groupKeys, List.mem_map] at hk
  obtain ⟨p, hp, rfl⟩ := hk
  rw [List.mem_filter] at hp
  obtain ⟨hp1, hp2⟩ := hp
  have hd : p.2 = d := of_decide_eq_true hp2
  obtain ⟨-, hparse⟩ := parsePairs_sound hps p (List.mem_of_mem_filter (by
    rw [retainedOf] at hp1; exact hp1))
  rw [hparse, hd]

theorem caloriesParsed_eq_none {recs : List Record} {d : ℕ} {k : String}
    (hq : ∀ rc ∈ recs, ¬ qualCaloriesRec rc d) (hk : parseDate k = some d) :
    caloriesParsed recs k = none := by
  have hnil : (recs.filter
      (fun r => decide (r.type = some CALORIES_TYPE ∧ key r = k))).filterMap
      Record.valueNum = [] := by
    rw [List.filterMap_eq_nil_iff]
    intro a ha
    rw [List.mem_filter] at ha
    obtain ⟨hty, hkey⟩ := of_decide_eq_true ha.2
    rcases hv : a.valueNum with _ | v
    · rfl
    · exact absurd ⟨hty, by rw [hv]; rfl, by rw [hkey]; exact hk⟩ (hq a ha.1)
  simp only [caloriesParsed]
  rw [hnil]
  rfl

theorem waterParsed_eq_none {recs : List Record} {d : ℕ} {k : String}
    (hq : ∀ rc ∈ recs, ¬ qualWaterRec rc d) (hk : parseDate k = some d) :
    waterParsed recs k = none := by
  have hnil : (recs.filter
      (fun r => decide (r.type = some WATER_TYPE ∧ key r = k))).filterMap
      Record.valueNum = [] := by
    rw [List.filterMap_eq_nil_iff]
    intro a ha
    rw [List.mem_filter] at ha
    obtain ⟨hty, hkey⟩ := of_decide_eq_true ha.2
    rcases hv : a.valueNum with _ | v
    · rfl
    · exact absurd ⟨hty, by rw [hv]; rfl, by rw [hkey]; exact hk⟩ (hq a ha.1)
  simp only [waterParsed]
  rw [hnil]
  rfl

theorem sleepParsed_eq_none {recs : List Record} {d : ℕ} {k : String}
    (hq : ∀ rc ∈ recs, ¬ qualSleepRec rc d) (hk : parseDate k = some d) :
    sleepParsed recs k = none := by
  have hnil : (recs.filter (fun r =>
      decide (r.type = some SLEEP_TYPE ∧ key r = k ∧ r.value.getD "" ∈ SLEEP_VALUES))).filterMap
      sleepHours = [] := by
    rw [List.filterMap_eq_nil_iff]
    intro a ha
    rw [List.mem_filter] at ha
    obtain ⟨hty, hkey, hval⟩ := of_decide_eq_true ha.2
    rcases hv : sleepHours a with _ | v
    · rfl
    · exact absurd ⟨hty, hval, by rw [hv]; rfl, by rw [hkey]; exact hk⟩ (hq a ha.1)
  simp only [sleepParsed]
  rw [hnil]
  rfl

theorem stepsParsed_eq_none {recs : List Record} {d : ℕ} {k : String}
    (hq : ∀ rc ∈ recs, ¬ qualStepsRec rc d) (hk : parseDate k = some d) :
    stepsParsed recs k = none := by
  have hnil : stepRecords recs k = [] := by
    rw [stepRecords, List.filter_eq_nil_iff]
    intro a ha hdec
    obtain ⟨hty, hkey, hval⟩ := of_decide_eq_true hdec
    exact absurd ⟨hty, hval, by rw [hkey]; exact hk⟩ (hq a ha)
  rw [stepsParsed, stepTotalsList, stepSrcs, hnil]
  simp [dedupFirst, dedupFirstAux]

/-- C2, counterexample.  The input holds a single body-mass record and no
calorie record at all, yet the single output row carries the daily calorie
value `0`: the daily value of a metric with no contributing record is zero,
not the missing-value sentinel the claim requires. -/
theorem metric_without_record_is_zero_cex :
    ((run_engine wRecs noTargets 90 14 739930).getD []).map Row.calories = [0] ∧
      wRecs.countP (fun rc => decide (rc.type = some CALORIES_TYPE)) = 0 := by
  decide!

/-- C2, amended.  In any `run_engine` output row and for each metric among
calories, steps, water and sleep independently: if no record contributed to
that metric on that row's date, that metric's daily value is `0` (the
`groupby(...).agg('sum')` of source line 120 collapses the parser's absent
value to zero), whatever the other metrics received; only the `weight`
column, aggregated with "last", keeps the missing-value sentinel. -/
theorem missing_metrics_aggregate_to_zero
    (recs : List Record) (t : Targets) (rd rw : ℕ) (now : ℚ) (out : List Row) (r : Row)
    (h : run_engine recs t rd rw now = some out) (hr : r ∈ out) :
    ((∀ rc ∈ recs, ¬ qualCaloriesRec rc r.date) → r.calories = 0) ∧
      ((∀ rc ∈ recs, ¬ qualStepsRec rc r.date) → r.steps = 0) ∧
      ((∀ rc ∈ recs, ¬ qualWaterRec rc r.date) → r.water = 0) ∧
      ((∀ rc ∈ recs, ¬ qualSleepRec rc r.date) → r.sleep = 0) := by
  obtain ⟨ps, i, hps, hi, rfl⟩ := mem_run_engine h hr
  rw [mkRow_date]
  refine ⟨?_, ?_, ?_, ?_⟩
  · intro hcal
    show caloriesAt recs _ _ = 0
    rw [caloriesAt]
    apply List.sum_eq_zero
    intro x hx
    rw [List.mem_map] at hx
    obtain ⟨k, hk, rfl⟩ := hx
    rw [caloriesParsed_eq_none hcal (groupKeys_parse hps hk)]
    rfl
  · intro hst
    show stepsAt recs _ _ = 0
    rw [stepsAt]
    apply List.sum_eq_zero
    intro x hx
    rw [List.mem_map] at hx
    obtain ⟨k, hk, rfl⟩ := hx
    rw [stepsParsed_eq_none hst (groupKeys_parse hps hk)]
    rfl
  · intro hwa
    show waterAt recs _ _ = 0
    rw [waterAt]
    apply List.sum_eq_zero
    intro x hx
    rw [List.mem_map] at hx
    obtain ⟨k, hk, rfl⟩ := hx
    rw [waterParsed_eq_none hwa (groupKeys_parse hps hk)]
    rfl
  · intro hsl
    show sleepAt recs _ _ = 0
    rw [sleepAt]
    apply List.sum_eq_zero
    intro x hx
    rw [List.mem_map] at hx
    obtain ⟨k, hk, rfl⟩ := hx
    rw [sleepParsed_eq_none hsl (groupKeys_parse hps hk)]
    rfl

/-- C2, witness: the per-metric theorem applied to the two-source step
input, whose single row received a step contribution (daily value 1000)
while calories, water and sleep had no contributing record and are 0. -/
theorem missing_metrics_aggregate_to_zero_witness :
    c5row.calories = 0 ∧ c5row.water = 0 ∧ c5row.sleep = 0 ∧ c5row.steps = 1000 :=
  ⟨(missing_metrics_aggregate_to_zero c5recs noTargets 90 14 739930 [c5row] c5row
      (by decide!) (by decide!)).1 (by decide!),
   (missing_metrics_aggregate_to_zero c5recs noTargets 90 14 739930 [c5row] c5row
      (by decide!) (by decide!)).2.2.1 (by decide!),
   (missing_metrics_aggregate_to_zero c5recs noTargets 90 14 739930 [c5row] c5row
      (by decide!) (by decide!)).2.2.2 (by decide!),
   by decide!⟩

/-- C3, counterexample.  The only record of the input has the unrecognized
type Height, so it is skipped for every metric and no qualifying record
exists; the claim then requires no row at all, yet the output table has one
row: `parse_xml` creates the date's entry before checking the record type
(source lines 42-43). -/
theorem skipped_record_still_creates_row_cex :
    ((run_engine c3recs noTargets 90 14 739930).getD []).length = 1 ∧
      (∀ rc ∈ c3recs, ∀ ty, rc.type = some ty → ty ∉ recognizedTypes) := by
  decide!

/-- C3, amended.  A date appears in the output exactly when some record has
a nonempty `startDate` whose 10-character key parses to that date inside the
retention window — whether or not the record qualified for any metric; only
records with an empty `startDate` fail to create a row. -/
theorem output_dates_characterization
    (recs : List Record) (t : Targets) (rd rw : ℕ) (now : ℚ) (out : List Row)
    (h : run_engine recs t rd rw now = some out) (d : ℕ) :
    d ∈ out.map Row.date ↔
      ∃ rc ∈ recs, key rc ≠ "" ∧ parseDate (key rc) = some d ∧
        now - (rd : ℚ) ≤ (d : ℚ) := by
  obtain ⟨ps, hps, hsh⟩ := run_engine_shape h
  have hback : (∃ rc ∈ recs, key rc ≠ "" ∧ parseDate (key rc) = some d ∧
      now - (rd : ℚ) ≤ (d : ℚ)) →
      ∃ p ∈ retainedOf ps (now - (rd : ℚ)), p.2 = d := by
    rintro ⟨rc, hrc, hk, hd, hcut⟩
    exact ⟨(key rc, d), retained_of_record hps hrc hk hd hcut, rfl⟩
  rcases hsh with ⟨hR, rfl⟩ | rfl
  · simp only [List.map_nil, List.not_mem_nil, false_iff]
    intro hc
    obtain ⟨p, hp, -⟩ := hback hc
    rw [hR] at hp
    exact List.not_mem_nil p hp
  · rw [out_map_date, mem_datesOf]
    constructor
    · rintro ⟨p, hp, rfl⟩
      obtain ⟨⟨rc, hrc, hk, hkey⟩, hparse, hcut⟩ := retained_sound hps hp
      exact ⟨rc, hrc, hk, by rw [hkey]; exact hparse, hcut⟩
    · exact hback

/-- C3, witness: the characterization applied to the concrete Height-record
input and the day number of 2026-01-05. -/
theorem output_dates_characterization_witness :
    739926 ∈ ((run_engine c3recs noTargets 90 14 739930).getD []).map Row.date ↔
      ∃ rc ∈ c3recs, key rc ≠ "" ∧ parseDate (key rc) = some 739926 ∧
        (739930 : ℚ) - (90 : ℕ) ≤ ((739926 : ℕ) : ℚ) :=
  output_dates_characterization c3recs noTargets 90 14 739930
    ((run_engine c3recs noTargets 90 14 739930).getD []) (by decide!) 739926

/-- C4, counterexample.  With `now` the day number 739930 (2026-01-09), a
record dated 2027-03-01 (day 740346) is retained by the `date >= cutoff`
filter and appears in the output even though its date lies far after `now`:
no upper bound is enforced. -/
theorem retention_no_upper_bound_cex :
    ((run_engine c4recs noTargets 90 14 739930).getD []).map Row.date = [740346] ∧
      parseDate "2027-03-01" = some 740346 ∧ ¬ ((740346 : ℚ) ≤ 739930) := by
  decide!

/-- C4, amended.  Output dates are strictly increasing with no duplicates
and bounded below by `now - retention_days`; the source enforces no upper
bound (future-dated records pass the filter, see the counterexample). -/
theorem dates_strictly_increasing_and_bounded_below
    (recs : List Record) (t : Targets) (rd rw : ℕ) (now : ℚ) (out : List Row)
    (h : run_engine recs t rd rw now = some out) :
    List.Pairwise (· < ·) (out.map Row.date) ∧
      ∀ d ∈ out.map Row.date, now - (rd : ℚ) ≤ (d : ℚ) := by
  obtain ⟨ps, hps, hsh⟩ := run_engine_shape h
  rcases hsh with ⟨hR, rfl⟩ | rfl
  · simp
  · rw [out_map_date]
    refine ⟨datesOf_sorted_lt _, ?_⟩
    intro d hd
    obtain ⟨p, hp, rfl⟩ := (mem_datesOf _ _).mp hd
    exact (retained_sound hps hp).2.2

/-- C4, witness: the amended theorem applied to the concrete future-dated
input. -/
theorem dates_strictly_increasing_and_bounded_below_witness :
    List.Pairwise (· < ·)
        (((run_engine c4recs noTargets 90 14 739930).getD []).map Row.date) ∧
      ∀ d ∈ ((run_engine c4recs noTargets 90 14 739930).getD []).map Row.date,
        (739930 : ℚ) - (90 : ℕ) ≤ (d : ℚ) :=
  dates_strictly_increasing_and_bounded_below c4recs noTargets 90 14 739930
    ((run_engine c4recs noTargets 90 14 739930).getD []) (by decide!)

/-- C1, counterexample.  The same record list, targets mapping,
retention_days and window_size, run at two different wall-clock times
(`datetime.now()` values), produce different outputs: a nonempty table at
`now = 739930` and an empty one at `now = 740500`, because the cutoff
filter of source line 101 reads the clock.  The output therefore does not
depend only on the inputs the claim lists. -/
theorem run_engine_depends_on_clock_cex :
    run_engine c1recs noTargets 90 14 739930 ≠ run_engine c1recs noTargets 90 14 740500 := by
  decide!

/-- C1, amended.  `run_engine` is deterministic once the invocation time is
included among the inputs: the output is a function of (raw records,
targets, retention_days, window_size, now), so two invocations agreeing on
all five produce identical tables. -/
theorem run_engine_deterministic_given_now
    (recs recs' : List Record) (t t' : Targets) (rd rd' rw rw' : ℕ) (now now' : ℚ)
    (h1 : recs = recs') (h2 : t = t') (h3 : rd = rd') (h4 : rw = rw') (h5 : now = now') :
    run_engine recs t rd rw now = run_engine recs' t' rd' rw' now' := by
  rw [h1, h2, h3, h4, h5]

/-- C1, witness: two invocations with all five inputs equal. -/
theorem run_engine_deterministic_given_now_witness :
    run_engine c1recs noTargets 90 14 739930 = run_engine c1recs noTargets 90 14 739930 :=
  run_engine_deterministic_given_now c1recs c1recs noTargets noTargets 90 90 14 14
    739930 739930 rfl rfl rfl rfl rfl

/-- C5, counterexample.  A single step source with daily total `-5`: the
total is nonzero, so the claim demands the step value `mean {-5} = -5`
("sources with a zero total are excluded", the rest averaged), but the code
filters with `v > 0` (source line 80), excludes the source, produces no
parsed step value, and the output row carries `0`. -/
theorem step_nonzero_negative_total_cex :
    stepTotalsList c5neg "2026-01-05" = [-5] ∧
      stepsParsed c5neg "2026-01-05" = none ∧
      ((run_engine c5neg noTargets 90 14 739930).getD []).map Row.steps = [0] ∧
      (-5 : ℚ) ≠ 0 := by
  decide!

/-- C5, amended.  The parsed daily step value is the arithmetic mean of the
strictly positive per-source totals: it is absent exactly when no per-source
total is positive (zero and negative totals are excluded), and when present
it satisfies `value * #positives = sum of positives`; two sources totalling
1000 and 0 on one date yield the final step value 1000. -/
theorem steps_mean_of_positive_source_totals :
    (∀ (recs : List Record) (k : String),
        (stepsParsed recs k = none ↔ ∀ v ∈ stepTotalsList recs k, v ≤ 0)) ∧
      (∀ (recs : List Record) (k : String) (v : ℚ), stepsParsed recs k = some v →
        v * (((stepTotalsList recs k).filter (fun x => decide (0 < x))).length : ℚ)
          = ((stepTotalsList recs k).filter (fun x => decide (0 < x))).sum) ∧
      ((run_engine c5recs noTargets 90 14 739930).getD []).map Row.steps = [1000] := by
  refine ⟨?_, ?_, by decide!⟩
  · intro recs k
    rw [stepsParsed]
    rcases hp : (stepTotalsList recs k).filter (fun v => decide (0 < v)) with _ | ⟨a, l⟩
    · simp only [hp, List.isEmpty_nil, if_true, true_iff]
      intro v hv
      by_contra hlt
      have : v ∈ (stepTotalsList recs k).filter (fun v => decide (0 < v)) :=
        List.mem_filter.mpr ⟨hv, decide_eq_true (lt_of_not_le hlt)⟩
      rw [hp] at this
      exact List.not_mem_nil v this
    · simp only [hp, List.isEmpty_cons, if_false]
      constructor
      · intro hc; exact absurd hc (by simp)
      · intro hall
        have ha : a ∈ (stepTotalsList recs k).filter (fun v => decide (0 < v)) := by
          rw [hp]; exact List.mem_cons_self _ _
        rw [List.mem_filter] at ha
        have := of_decide_eq_true ha.2
        exact absurd (hall a ha.1) (not_le_of_lt this)
  · intro recs k v hv
    rw [stepsParsed] at hv
    rcases hp : (stepTotalsList recs k).filter (fun x => decide (0 < x)) with _ | ⟨a, l⟩
    · rw [hp] at hv; simp at hv
    · rw [hp, if_neg (by simp : ¬((a :: l).isEmpty = true))] at hv
      have hlen : (((a :: l).length : ℚ)) ≠ 0 := by
        have hn : (a :: l).length ≠ 0 := by simp
        exact_mod_cast hn
      rw [← Option.some.inj hv]
      exact div_mul_cancel₀ _ hlen

/-- C5, witness: the mean property applied to the two-source input, whose
positive totals are `[1000]`. -/
theorem steps_mean_of_positive_source_totals_witness :
    (1000 : ℚ) * (((stepTotalsList c5recs "2026-01-05").filter
        (fun x => decide (0 < x))).length : ℚ)
      = ((stepTotalsList c5recs "2026-01-05").filter (fun x => decide (0 < x))).sum :=
  steps_mean_of_positive_source_totals.2.1 c5recs "2026-01-05" 1000 (by decide!)

theorem mkRow_composite_eq (recs : List Record) (t : Targets) (rw : ℕ)
    (retained : List (String × ℕ)) (dates : List ℕ) (i : ℕ) :
    (mkRow recs t rw retained dates i).composite_score
      = (mkRow recs t rw retained dates i).weight_pct_change.map (fun wv =>
          (35 : ℚ) / 100 * |wv - target_weight_chg t|
            + 25 / 100 * |(mkRow recs t rw retained dates i).cal_dev|
            + 15 / 100 * |(mkRow recs t rw retained dates i).steps_dev|
            + 15 / 100 * |(mkRow recs t rw retained dates i).water_dev|
            + 10 / 100 * |(mkRow recs t rw retained dates i).sleep_dev|) := rfl

theorem mkRow_recommendation_eq (recs : List Record) (t : Targets) (rw : ℕ)
    (retained : List (String × ℕ)) (dates : List ℕ) (i : ℕ) :
    (mkRow recs t rw retained dates i).recommendation
      = recommend (target_weight_chg t)
          { composite_score := (mkRow recs t rw retained dates i).composite_score,
            weight_pct_change := (mkRow recs t rw retained dates i).weight_pct_change,
            sleep_dev := some (mkRow recs t rw retained dates i).sleep_dev,
            water_dev := some (mkRow recs t rw retained dates i).water_dev } := rfl

/-- C6.  In every output row, the composite score is the fixed weighted sum
`0.35*|weight_pct_change - target_weight_change| + 0.25*|cal_dev| +
0.15*|steps_dev| + 0.15*|water_dev| + 0.10*|sleep_dev|` (propagating a
missing `weight_pct_change`), and whenever `weight_pct_change` is missing
the composite score is missing and the recommendation is the
"Insufficient data" label, whatever the other metrics hold. -/
theorem composite_score_formula_and_propagation
    (recs : List Record) (t : Targets) (rd rw : ℕ) (now : ℚ) (out : List Row) (r : Row)
    (h : run_engine recs t rd rw now = some out) (hr : r ∈ out) :
    r.composite_score = r.weight_pct_change.map (fun wv =>
        (35 : ℚ) / 100 * |wv - target_weight_chg t| + 25 / 100 * |r.cal_dev|
          + 15 / 100 * |r.steps_dev| + 15 / 100 * |r.water_dev|
          + 10 / 100 * |r.sleep_dev|) ∧
      (r.weight_pct_change = none →
        r.composite_score = none ∧ r.recommendation = RecLabel.insufficientData) := by
  obtain ⟨ps, i, hps, hi, rfl⟩ := mem_run_engine h hr
  refine ⟨mkRow_composite_eq _ _ _ _ _ _, ?_⟩
  intro hnone
  have hcomp : (mkRow recs t rw (retainedOf ps (now - (rd : ℚ)))
      (datesOf (retainedOf ps (now - (rd : ℚ)))) i).composite_score = none := by
    rw [mkRow_composite_eq, hnone]; rfl
  refine ⟨hcomp, ?_⟩
  rw [mkRow_recommendation_eq, hnone, hcomp]
  rfl

/-- C6, witness: the theorem applied to the weight-only input, whose single
row has `weight_pct_change = none` and all four deviations present. -/
theorem composite_score_formula_and_propagation_witness :
    (wRow.composite_score = wRow.weight_pct_change.map (fun wv =>
        (35 : ℚ) / 100 * |wv - target_weight_chg noTargets| + 25 / 100 * |wRow.cal_dev|
          + 15 / 100 * |wRow.steps_dev| + 15 / 100 * |wRow.water_dev|
          + 10 / 100 * |wRow.sleep_dev|) ∧
      (wRow.weight_pct_change = none →
        wRow.composite_score = none ∧ wRow.recommendation = RecLabel.insufficientData)) :=
  composite_score_formula_and_propagation wRecs noTargets 90 14 739930 [wRow] wRow
    (by decide!) (by decide!)

/-- C7.  `recommend` is exactly first-match evaluation of the spec's ordered
rule table (missing data, score below tolerance, loss too slow, loss too
aggressive, sleep deficit, under-hydrated, default), with a missing
`sleep_dev`/`water_dev` behaving as 0 in its comparison; and the spec's
priority probe — composite 0.5, weight change exactly `target + 0.35`,
sleep deviation -25 — yields the loss-too-slow label, not the sleep-deficit
label. -/
theorem recommend_first_match_priority :
    (∀ (tw : ℚ) (r : ScoreRow), recommend tw r = recommendSpec tw r) ∧
      recommend (-(3 / 4))
          { composite_score := some (1 / 2),
            weight_pct_change := some (-(3 / 4) + 35 / 100),
            sleep_dev := some (-25), water_dev := some 0 } = RecLabel.lossTooSlow := by
  constructor
  · intro tw r
    rcases r with ⟨c, w, sd, wd⟩
    cases c <;> cases w <;> cases sd <;> cases wd <;>
      simp [recommend, recommendSpec, specRuleList, List.findSome?] <;>
      split_ifs <;> (try simp_all) <;> (try linarith)
  · decide!

/-- C8, counterexample.  The input's only record is a calorie record whose
value "abc" is non-numeric, so no qualifying record exists in the retention
window; the claim then requires an empty table, but the output has one row
(the date entry is created before the value check, source lines 42-43 and
57-60). -/
theorem no_qualifying_record_nonempty_table_cex :
    ((run_engine c8recs noTargets 90 14 739930).getD []).length = 1 ∧
      (∀ rc ∈ c8recs, rc.valueNum = none) := by
  decide!

/-- C8, amended.  `run_engine` returns the empty table — a value, not an
exception — whenever no record carries a nonempty date key that parses to a
day inside the retention window; in particular a record-free export yields
the empty table.  (A skipped-but-dated in-window record still produces a
row, and a nonempty key that does not parse raises instead.) -/
theorem empty_table_when_no_dated_record_in_window
    (recs : List Record) (t : Targets) (rd rw : ℕ) (now : ℚ)
    (h : ∀ rc ∈ recs, key rc = "" ∨
      ∃ d, parseDate (key rc) = some d ∧ (d : ℚ) < now - (rd : ℚ)) :
    run_engine recs t rd rw now = some [] := by
  have htot : ∀ k ∈ rowKeys recs, ∃ d, parseDate k = some d := by
    intro k hk
    obtain ⟨rc, hrc, hne, rfl⟩ := (mem_rowKeys recs k).mp hk
    rcases h rc hrc with hempty | ⟨d, hd, -⟩
    · exact absurd hempty hne
    · exact ⟨d, hd⟩
  obtain ⟨ps, hps⟩ := parsePairs_total htot
  have hret : retainedOf ps (now - (rd : ℚ)) = [] := by
    rw [retainedOf, List.filter_eq_nil_iff]
    intro p hp
    obtain ⟨hk, hd⟩ := parsePairs_sound hps p hp
    obtain ⟨rc, hrc, hne, hkey⟩ := (mem_rowKeys recs p.1).mp hk
    rcases h rc hrc with hempty | ⟨d, hd', hlt⟩
    · exact absurd hempty hne
    · rw [hkey, hd] at hd'
      obtain rfl := Option.some.inj hd'
      simp only [decide_eq_true_eq]
      exact not_le_of_lt hlt
  rw [run_engine, hps]
  simp only [hret]
  rfl

/-- C8, witness: a well-formed export with zero records yields the empty
table. -/
theorem empty_table_when_no_dated_record_in_window_witness :
    run_engine [] noTargets 90 14 0 = some [] :=
  empty_table_when_no_dated_record_in_window [] noTargets 90 14 0 (by simp)

/-- C10.  `run_engine` never fails on a targets mapping with absent keys: it
behaves exactly as if every absent key were replaced by the built-in default
(calories 2850, steps 7000, water 2500, sleep 7.5 hours, weight change
-0.75 percent per week), and on the empty mapping the filled-in defaults
are precisely those constants, so deviations, composite scores and
recommendations are computed against them. -/
theorem targets_defaults_substituted :
    (∀ (recs : List Record) (t : Targets) (rd rw : ℕ) (now : ℚ),
        run_engine recs t rd rw now = run_engine recs (fillTargets t) rd rw now) ∧
      fillTargets noTargets =
        { calories := some 2850, steps := some 7000, water := some 2500,
          sleep := some (15 / 2), weight_change_pct_per_week := some (-(3 / 4)) } := by
  constructor
  · intro recs t rd rw now
    rfl
  · rfl
